import Mathlib

/-!
Verification of the JSX lowering engine of the solid-jsx-oxc package
(a Rust port of babel-plugin-jsx-dom-expressions built on OXC).

The development shallowly embeds the DOM-mode transform:
`crates/dom/src/element.rs` (native element lowering),
`crates/dom/src/component.rs` (component lowering) and
`crates/dom/src/transform.rs` (the driver) as pure Lean functions over an
explicit `BlockContext` state.  Supporting modules of the `common` crate
(`check.rs`, `constants.rs`, `expression.rs`, `options.rs`) and the IR module
(`crates/dom/src/ir.rs`) are not part of the provided sources; their
definitions are modelled from the specification, as marked on each.
-/

namespace SolidJsxOxc

/-! ## JavaScript expressions (the fragment of the oxc `Expression` AST that
the transform inspects) -/

/-- A JavaScript expression as seen by the transform.  `onceAnnotated` stands
for an expression preceded by a `/* @once */` annotation and `immutableIdent`
for a pure identifier whose binding is known-immutable at transform time. -/
inductive JSExpr where
  | stringLiteral (s : String)
  | numericLiteral (n : Int)
  | booleanLiteral (b : Bool)
  | onceAnnotated (name : String)
  | immutableIdent (name : String)
  | ident (name : String)
  | call (callee : String)
  | member (obj : String) (prop : String)
  | otherExpr
deriving DecidableEq, Repr

/-- Modelled from the spec: `is-dynamic` (common/check.rs is not in the
provided sources).  An expression is static iff it is a string/number/boolean
literal, is preceded by a `/* @once */` annotation, or is a pure identifier
whose binding is known-immutable; all other expressions are dynamic. -/
def is_dynamic : JSExpr → Bool
  | .stringLiteral _ => false
  | .numericLiteral _ => false
  | .booleanLiteral _ => false
  | .onceAnnotated _ => false
  | .immutableIdent _ => false
  | _ => true

/-! ## String helpers.  Kernel-reducible equivalents of the Rust `str`
operations used by the transform (the sources only apply them to ASCII
strings, where these agree with the standard library versions). -/

/-- `str::contains(char)`. -/
def strContains (s : String) (c : Char) : Bool :=
  s.data.contains c

/-- `str::starts_with`. -/
def strStartsWith (s p : String) : Bool :=
  p.data.isPrefixOf s.data

/-- The first `n` characters of a string. -/
def strTake (s : String) (n : Nat) : String :=
  String.mk (s.data.take n)

/-- A string without its first `n` characters. -/
def strDrop (s : String) (n : Nat) : String :=
  String.mk (s.data.drop n)

/-- ASCII lowercasing. -/
def strToLower (s : String) : String :=
  String.mk (s.data.map Char.toLower)

/-- `str::is_empty`. -/
def strIsEmpty (s : String) : Bool :=
  s.data.isEmpty

/-- Join with a separator, as Rust `Vec::join`. -/
def strJoinSep (sep : String) : List String -> String
  | [] => ""
  | x :: xs => xs.foldl (fun acc s => acc ++ sep ++ s) x

/-! ## Classifier constants (common/constants.rs, modelled from the spec) -/

/-- Modelled from the spec: the HTML void-element set (constants.rs is not in
the provided sources). -/
def VOID_ELEMENTS : List String :=
  ["area", "base", "br", "col", "embed", "hr", "img", "input", "link",
   "meta", "param", "source", "track", "wbr"]

/-- Modelled from the spec: the built-in delegated event set (constants.rs is
not in the provided sources). -/
def DELEGATED_EVENTS : List String :=
  ["beforeinput", "click", "dblclick", "contextmenu", "focusin", "focusout",
   "input", "keydown", "keyup", "mousedown", "mousemove", "mouseout",
   "mouseover", "mouseup", "pointerdown", "pointermove", "pointerout",
   "pointerover", "pointerup", "touchend", "touchmove", "touchstart"]

/-- Modelled from the spec: the attribute alias table (`className` to `class`,
`htmlFor` to `for`; keys not in the table pass through). -/
def ALIASES (key : String) : Option String :=
  if key == "className" then some "class"
  else if key == "htmlFor" then some "for"
  else none

/-- Modelled from the spec: membership test against a fixed set of SVG tag
names (check.rs is not in the provided sources; a representative subset of
the ~80 names, disjoint from the HTML names used below). -/
def SVG_ELEMENTS : List String :=
  ["svg", "path", "circle", "rect", "g", "line", "polyline", "polygon",
   "ellipse", "defs", "use", "symbol", "marker", "mask", "pattern",
   "image", "clipPath", "linearGradient", "radialGradient", "stop",
   "filter", "foreignObject", "text", "tspan", "animate"]

/-- Modelled from the spec: `is-svg-element`. -/
def is_svg_element (tag : String) : Bool :=
  SVG_ELEMENTS.contains tag

/-- Modelled from the spec: `is-component` is true iff the first character of
the tag is uppercase or the tag contains a dot (member-expression tags). -/
def is_component (tag : String) : Bool :=
  (match tag.toList with
   | [] => false
   | c :: _ => c.isUpper) || strContains tag '.'

/-- Modelled from the spec: `is-built-in`. -/
def is_built_in (tag : String) : Bool :=
  ["For", "Show", "Switch", "Match", "Index", "Suspense", "Portal",
   "Dynamic", "ErrorBoundary"].contains tag

/-! ## Expression utilities (common/expression.rs, modelled from the spec) -/

/-- ASCII whitespace for the JSX whitespace rule. -/
def isAsciiWs (c : Char) : Bool :=
  c == ' ' || c == '\t' || c == '\n' || c == '\r'

/-- Collapse runs of ASCII whitespace to a single space; the Boolean argument
records whether the previous character was whitespace. -/
def collapseWs : List Char → Bool → List Char
  | [], _ => []
  | c :: rest, prevWs =>
    if isAsciiWs c then
      if prevWs then collapseWs rest true else ' ' :: collapseWs rest true
    else c :: collapseWs rest false

/-- Modelled from the spec: `trim-whitespace` collapses runs of ASCII
whitespace to a single space and drops the string entirely when it consists
only of whitespace and spans a line break (expression.rs is not in the
provided sources). -/
def trim_whitespace (s : String) : String :=
  let cs := s.toList
  if cs.all isAsciiWs && cs.any (fun c => c == '\n') then ""
  else String.mk (collapseWs cs false)

/-- Escape a single character for HTML output. -/
def escapeChar (is_attr : Bool) (c : Char) : String :=
  if c == '&' then "&amp;"
  else if c == '<' then "&lt;"
  else if c == '>' then "&gt;"
  else if c == '"' && is_attr then "&quot;"
  else String.mk [c]

/-- Modelled from the spec: `escape-html(text, is_attr)` replaces `&`, `<`,
`>` unconditionally and additionally `"` when `is_attr` is true. -/
def escape_html (s : String) (is_attr : Bool) : String :=
  String.join (s.toList.map (escapeChar is_attr))

/-- Modelled from the spec: `to-event-name` strips a leading `on`
(case-insensitive) and normalizes to lowercase. -/
def to_event_name (key : String) : String :=
  let stripped := if strToLower (strTake key 2) == "on" then strDrop key 2 else key
  strToLower stripped

/-- Rust `Display` rendering of a `bool`, used in generated code strings. -/
def boolStr (b : Bool) : String :=
  if b then "true" else "false"

/-! ## Options (common/options.rs, modelled from the spec) -/

/-- The `generate` backend selector. -/
inductive GenerateMode where
  | dom
  | ssr
  | universal
deriving DecidableEq, Repr

/-- Modelled from the spec: the transform options record (options.rs is not
in the provided sources); defaults follow the documented option defaults. -/
structure TransformOptions where
  module_name : String := "solid-js/web"
  generate : GenerateMode := .dom
  hydratable : Bool := false
  delegate_events : Bool := true
  delegated_events : List String := []
  wrap_conditionals : Bool := true
  context_to_custom_elements : Bool := true
  effect_wrapper : String := "effect"
  memo_wrapper : String := "memo"
  filename : String := "input.jsx"
  source_map : Bool := false
deriving DecidableEq, Repr

/-- `TransformOptions::solid_defaults`. -/
def solid_defaults : TransformOptions := {}

/-! ## The IR (crates/dom/src/ir.rs, modelled from the spec and from its uses
in element.rs / transform.rs / component.rs) -/

/-- Modelled from the spec: a local binding introduced for a walk-path
identifier.  No code path in the provided sources ever constructs one. -/
structure Declaration where
  name : String
deriving DecidableEq, Repr

/-- Modelled from the spec: a statement to execute after template clone,
carried as its generated code string. -/
structure Expr where
  code : String
deriving DecidableEq, Repr

/-- Modelled from the spec: a dynamic binding record
`(owner-node-id, attribute-key, value-expression, is_svg, is_custom_element,
tag_name)`; field names follow the uses in element.rs. -/
structure DynamicBinding where
  elem : String
  key : String
  value : String
  is_svg : Bool
  is_ce : Bool
  tag_name : String
deriving DecidableEq, Repr

/-- Modelled from the spec: the TransformResult IR record; field names follow
the uses in element.rs and transform.rs. -/
structure TransformResult where
  id : Option String := none
  template : String := ""
  template_with_closing_tags : String := ""
  tag_name : Option String := none
  is_svg : Bool := false
  has_custom_element : Bool := false
  is_void : Bool := false
  declarations : List Declaration := []
  exprs : List Expr := []
  dynamics : List DynamicBinding := []
  text : Bool := false
deriving DecidableEq, Repr

/-- `TransformResult::default()`. -/
def TransformResult.empty : TransformResult := {}

/-- Modelled from the spec: the per-compilation-unit Block Context, holding
the requested helpers, delegated events, synthesized templates and the fresh
identifier counter.  Registries are ordered lists preserving first-encounter
order, as the spec requires for determinism of emitted imports. -/
structure BlockContext where
  helpers : List String := []
  delegates : List String := []
  templates : List String := []
  counter : Nat := 0
deriving DecidableEq, Repr

/-- `BlockContext::new()`. -/
def BlockContext.new : BlockContext := {}

/-- Modelled from the spec: `register_helper(name)` is an idempotent
insertion preserving first-encounter order. -/
def register_helper (c : BlockContext) (name : String) : BlockContext :=
  if c.helpers.contains name then c
  else { c with helpers := c.helpers ++ [name] }

/-- Modelled from the spec: `register_delegate(event)` is an idempotent
insertion preserving first-encounter order. -/
def register_delegate (c : BlockContext) (event : String) : BlockContext :=
  if c.delegates.contains event then c
  else { c with delegates := c.delegates ++ [event] }

/-- Modelled from the spec: `generate_uid(prefix)` returns the prefix
followed by the next counter value. -/
def generate_uid (c : BlockContext) (pre : String) : String × BlockContext :=
  (pre ++ toString c.counter, { c with counter := c.counter + 1 })

/-- `TransformInfo` from transform.rs (all fields default to false). -/
structure TransformInfo where
  top_level : Bool := false
  last_element : Bool := false
  skip_id : Bool := false
  component_child : Bool := false
  fragment_child : Bool := false
deriving DecidableEq, Repr

/-- `TransformInfo::default()`. -/
def TransformInfo.mkDefault : TransformInfo := {}

/-! ## JSX AST (the fragment of the oxc JSX AST that the transform reads).
Elements carry the string produced by `get_tag_name` directly. -/

/-- A JSX attribute name: plain identifier or namespaced. -/
inductive AttrName where
  | identName (name : String)
  | namespaced (ns : String) (nm : String)
deriving DecidableEq, Repr

/-- A JSX attribute value.  `exprContainer none` is a container holding a
`JSXEmptyExpression`; `otherVal` covers element/fragment values, which the
transform ignores. -/
inductive JSXAttrValue where
  | stringLit (s : String)
  | exprContainer (e : Option JSExpr)
  | otherVal
deriving DecidableEq, Repr

/-- A `JSXAttribute`: name plus optional value. -/
structure JSXAttribute where
  name : AttrName
  value : Option JSXAttrValue
deriving DecidableEq, Repr

/-- A `JSXAttributeItem`: plain attribute or spread attribute. -/
inductive AttrItem where
  | attr (a : JSXAttribute)
  | spreadAttr
deriving DecidableEq, Repr

/-- A `JSXChild`.  An element child carries its tag name (the result of
`get_tag_name`), attribute list and children. -/
inductive JSXChild where
  | text (s : String)
  | element (tag : String) (attrs : List AttrItem) (children : List JSXChild)
  | exprContainer (e : Option JSExpr)
  | fragment (children : List JSXChild)
  | spreadChild
deriving Repr

/-- The attribute key string computed at the top of `transform_attribute`. -/
def jsxAttrKey (a : JSXAttribute) : String :=
  match a.name with
  | .identName n => n
  | .namespaced ns nm => ns ++ ":" ++ nm

/-! ## Native element lowering (crates/dom/src/element.rs) -/

/-- `transform_ref` from element.rs: registers the `use` helper and, when the
value is an expression container, emits a `_use(binding)` expression. -/
def transform_ref (a : JSXAttribute) (eid : String) (r : TransformResult)
    (c : BlockContext) : TransformResult × BlockContext :=
  let c1 := register_helper c "use"
  match a.value with
  | some (.exprContainer _) =>
    ({ r with exprs := r.exprs ++ [⟨"_use(/* ref */, " ++ eid ++ ")"⟩] }, c1)
  | _ => (r, c1)

/-- `transform_event` from element.rs: resolves the event name, registers
delegation and emits a `$$`-property assignment when the event is delegated,
otherwise registers the `addEventListener` helper and emits a
listener-attach expression. -/
def transform_event (key : String) (eid : String) (r : TransformResult)
    (c : BlockContext) (o : TransformOptions) : TransformResult × BlockContext :=
  let event_name := to_event_name key
  let should_delegate := o.delegate_events &&
    (DELEGATED_EVENTS.contains event_name || o.delegated_events.contains event_name)
  if should_delegate then
    (({ r with exprs := r.exprs ++
        [⟨eid ++ ".$$" ++ event_name ++ "  = /* handler */"⟩] }),
     register_delegate c event_name)
  else
    (({ r with exprs := r.exprs ++
        [⟨"_addEventListener(" ++ eid ++ ", \"" ++ event_name ++ "\", /* handler */)"⟩] }),
     register_helper c "addEventListener")

/-- `transform_directive` from element.rs: registers the `use` helper and
emits a directive-invocation expression. -/
def transform_directive (key : String) (eid : String) (r : TransformResult)
    (c : BlockContext) : TransformResult × BlockContext :=
  let c1 := register_helper c "use"
  let directive_name := strDrop key 4
  ({ r with exprs := r.exprs ++
      [⟨"_use(" ++ directive_name ++ ", " ++ eid ++ ", () => /* directive value */)"⟩] }, c1)

/-- `transform_attribute` from element.rs: dispatch on the attribute key and
value kind; static string values are inlined into the template, dynamic
expression values become DynamicBinding records. -/
def transform_attribute (a : JSXAttribute) (eid : String) (r : TransformResult)
    (c : BlockContext) (o : TransformOptions) : TransformResult × BlockContext :=
  let key := jsxAttrKey a
  if key == "ref" then transform_ref a eid r c
  else if strStartsWith key "on" then transform_event key eid r c o
  else if strStartsWith key "use:" then transform_directive key eid r c
  else
    match a.value with
    | some (.stringLit s) =>
      let attrKey := (ALIASES key).getD key
      ({ r with template := r.template ++ " " ++ attrKey ++ "=\"" ++ escape_html s true ++ "\"" }, c)
    | some (.exprContainer (some e)) =>
      if is_dynamic e then
        ({ r with dynamics := r.dynamics ++
            [{ elem := eid, key := key, value := "/* dynamic expr */",
               is_svg := r.is_svg, is_ce := r.has_custom_element,
               tag_name := r.tag_name.getD "" }] }, c)
      else
        let attrKey := (ALIASES key).getD key
        ({ r with template := r.template ++ " " ++ attrKey ++ "=\"/* static expr */\"" }, c)
    | some (.exprContainer none) => (r, c)
    | some .otherVal => (r, c)
    | none => ({ r with template := r.template ++ " " ++ key }, c)

/-- The attribute loop inside `transform_attributes`: fold
`transform_attribute` over the items, handling spread attributes in place. -/
def transform_attr_list (attrs : List AttrItem) (eid : String)
    (has_children : Bool) (r : TransformResult) (c : BlockContext)
    (o : TransformOptions) : TransformResult × BlockContext :=
  match attrs with
  | [] => (r, c)
  | .attr a :: rest =>
    let p := transform_attribute a eid r c o
    transform_attr_list rest eid has_children p.1 p.2 o
  | .spreadAttr :: rest =>
    let c1 := register_helper c "spread"
    let r1 := { r with exprs := r.exprs ++
        [⟨"_spread(" ++ eid ++ ", /* spread expr */, " ++ boolStr r.is_svg ++
          ", " ++ boolStr has_children ++ ")"⟩] }
    transform_attr_list rest eid has_children r1 c1 o

/-- `transform_attributes` from element.rs: derives the element id (a fresh
uid when the result carries none) and processes every attribute item. -/
def transform_attributes (attrs : List AttrItem) (has_children : Bool)
    (r : TransformResult) (c : BlockContext) (o : TransformOptions) :
    TransformResult × BlockContext :=
  let p := match r.id with
    | some i => (i, c)
    | none => generate_uid c "el$"
  transform_attr_list attrs p.1 has_children r p.2 o

mutual

/-- `transform_element` from element.rs: classifies the tag, allocates the
element id unless `skip_id`, builds the opening tag and attributes, closes
the tag, and for non-void elements recurses into children and appends the
closing tag to both template fields. -/
def transform_element (tag : String) (attrs : List AttrItem)
    (children : List JSXChild) (info : TransformInfo) (c : BlockContext)
    (o : TransformOptions) : TransformResult × BlockContext :=
  let is_svg := is_svg_element tag
  let isVoid := VOID_ELEMENTS.contains tag
  let is_custom_element := strContains tag '-'
  let r0 : TransformResult :=
    { TransformResult.empty with
      tag_name := some tag, is_svg := is_svg,
      has_custom_element := is_custom_element }
  let p1 := if info.skip_id then (r0, c)
    else
      let u := generate_uid c "el$"
      ({ r0 with id := some u.1 }, u.2)
  let r2 := { p1.1 with
      template := "<" ++ tag,
      template_with_closing_tags := "<" ++ tag }
  let p3 := transform_attributes attrs (!children.isEmpty) r2 p1.2 o
  let r4 := { p3.1 with
      template := p3.1.template ++ ">",
      template_with_closing_tags := p3.1.template_with_closing_tags ++ ">" }
  if isVoid then (r4, p3.2)
  else
    let p5 := transform_children children r4 p3.2 o
    ({ p5.1 with
        template := p5.1.template ++ "</" ++ tag ++ ">",
        template_with_closing_tags := p5.1.template_with_closing_tags ++ "</" ++ tag ++ ">" },
     p5.2)
termination_by (sizeOf children, 1)

/-- `transform_children` from element.rs: walk the children in source order,
appending escaped text, merging recursively transformed child elements, and
registering `insert` for expression-container children (the insert
expression is emitted only when the result carries an id). -/
def transform_children (children : List JSXChild) (r : TransformResult)
    (c : BlockContext) (o : TransformOptions) : TransformResult × BlockContext :=
  match children with
  | [] => (r, c)
  | .text s :: rest =>
    let content := trim_whitespace s
    let r1 := if strIsEmpty content then r
      else { r with template := r.template ++ escape_html content false }
    transform_children rest r1 c o
  | .element ctag cattrs cchildren :: rest =>
    let p := transform_element ctag cattrs cchildren TransformInfo.mkDefault c o
    let r1 := { r with
        template := r.template ++ p.1.template,
        declarations := r.declarations ++ p.1.declarations,
        exprs := r.exprs ++ p.1.exprs,
        dynamics := r.dynamics ++ p.1.dynamics }
    transform_children rest r1 p.2 o
  | .exprContainer _ :: rest =>
    let c1 := register_helper c "insert"
    let r1 := match r.id with
      | some i => { r with exprs := r.exprs ++ [⟨"_insert(" ++ i ++ ", /* child expr */)"⟩] }
      | none => r
    transform_children rest r1 c1 o
  | .fragment _ :: rest => transform_children rest r c o
  | .spreadChild :: rest => transform_children rest r c o
termination_by (sizeOf children, 0)

end

/-! ## Component lowering (crates/dom/src/component.rs) -/

/-- `get_children_expr` from component.rs: a single child yields the
single-child placeholder, several yield the array placeholder. -/
def get_children_expr (children : List JSXChild) : String :=
  if children.length == 1 then "/* single child */" else "[/* children */]"

/-- One step of the attribute loop in `build_props`: returns the updated
(static props, dynamic props, has_spread) accumulator. -/
def build_props_step (acc : List String × List String × Bool) (item : AttrItem) :
    List String × List String × Bool :=
  match item with
  | .spreadAttr => (acc.1, acc.2.1, true)
  | .attr a =>
    let key := jsxAttrKey a
    match a.value with
    | some (.stringLit s) =>
      (acc.1 ++ [key ++ ": \"" ++ s ++ "\""], acc.2.1, acc.2.2)
    | some (.exprContainer (some e)) =>
      if is_dynamic e then
        (acc.1, acc.2.1 ++ ["get " ++ key ++ "() \x7b return /* expr */; \x7d"], acc.2.2)
      else
        (acc.1 ++ [key ++ ": /* expr */"], acc.2.1, acc.2.2)
    | some (.exprContainer none) => acc
    | some .otherVal => acc
    | none => (acc.1 ++ [key ++ ": true"], acc.2.1, acc.2.2)

/-- `build_props` from component.rs: collect static and dynamic prop strings,
append the `get children()` getter when children exist, and assemble the
descriptor (wrapped in `_mergeProps` when a spread attribute occurred). -/
def build_props (attrs : List AttrItem) (children : List JSXChild)
    (c : BlockContext) : String × BlockContext :=
  let acc := attrs.foldl build_props_step ([], [], false)
  let static_props := acc.1
  let dynamic_props :=
    if !children.isEmpty then
      let children_expr := get_children_expr children
      if !strIsEmpty children_expr then
        acc.2.1 ++ ["get children() \x7b return " ++ children_expr ++ "; \x7d"]
      else acc.2.1
    else acc.2.1
  let has_spread := acc.2.2
  if has_spread then
    let c1 := register_helper c "mergeProps"
    ("_mergeProps(/* spread */, \x7b " ++
      strJoinSep ", " (static_props ++ dynamic_props) ++ " \x7d)", c1)
  else if dynamic_props.isEmpty && static_props.isEmpty then
    ("\x7b\x7d", c)
  else
    ("\x7b " ++ strJoinSep ", " (static_props ++ dynamic_props) ++ " \x7d", c)

/-- `transform_builtin` from component.rs: each built-in registers
`createComponent` plus its own helper and emits a fixed call shape; an
unrecognized built-in falls back to a bare `_createComponent` call. -/
def transform_builtin (tag : String) (c : BlockContext) :
    TransformResult × BlockContext :=
  match tag with
  | "For" =>
    let c1 := register_helper (register_helper c "createComponent") "For"
    ({ TransformResult.empty with exprs :=
        [⟨"_createComponent(_For, \x7b each: /* each */, children: /* callback */ \x7d)"⟩] }, c1)
  | "Show" =>
    let c1 := register_helper (register_helper c "createComponent") "Show"
    ({ TransformResult.empty with exprs :=
        [⟨"_createComponent(_Show, \x7b when: /* when */, fallback: /* fallback */, children: /* children */ \x7d)"⟩] }, c1)
  | "Switch" =>
    let c1 := register_helper (register_helper c "createComponent") "Switch"
    ({ TransformResult.empty with exprs :=
        [⟨"_createComponent(_Switch, \x7b children: /* Match children */ \x7d)"⟩] }, c1)
  | "Match" =>
    let c1 := register_helper (register_helper c "createComponent") "Match"
    ({ TransformResult.empty with exprs :=
        [⟨"_createComponent(_Match, \x7b when: /* when */, children: /* children */ \x7d)"⟩] }, c1)
  | "Index" =>
    let c1 := register_helper (register_helper c "createComponent") "Index"
    ({ TransformResult.empty with exprs :=
        [⟨"_createComponent(_Index, \x7b each: /* each */, children: /* callback */ \x7d)"⟩] }, c1)
  | "Suspense" =>
    let c1 := register_helper (register_helper c "createComponent") "Suspense"
    ({ TransformResult.empty with exprs :=
        [⟨"_createComponent(_Suspense, \x7b fallback: /* fallback */, children: /* children */ \x7d)"⟩] }, c1)
  | "Portal" =>
    let c1 := register_helper (register_helper c "createComponent") "Portal"
    ({ TransformResult.empty with exprs :=
        [⟨"_createComponent(_Portal, \x7b mount: /* mount */, children: /* children */ \x7d)"⟩] }, c1)
  | "Dynamic" =>
    let c1 := register_helper (register_helper c "createComponent") "Dynamic"
    ({ TransformResult.empty with exprs :=
        [⟨"_createComponent(_Dynamic, \x7b component: /* component */, .../* props */ \x7d)"⟩] }, c1)
  | "ErrorBoundary" =>
    let c1 := register_helper (register_helper c "createComponent") "ErrorBoundary"
    ({ TransformResult.empty with exprs :=
        [⟨"_createComponent(_ErrorBoundary, \x7b fallback: /* fallback */, children: /* children */ \x7d)"⟩] }, c1)
  | _ =>
    let c1 := register_helper c "createComponent"
    ({ TransformResult.empty with exprs :=
        [⟨"_createComponent(" ++ tag ++ ", \x7b\x7d)"⟩] }, c1)

/-- `transform_component` from component.rs: built-ins take the fixed
lowering; user components register `createComponent`, build the prop
descriptor and emit the constructor call. -/
def transform_component (tag : String) (attrs : List AttrItem)
    (children : List JSXChild) (c : BlockContext) (o : TransformOptions) :
    TransformResult × BlockContext :=
  if is_built_in tag then transform_builtin tag c
  else
    let c1 := register_helper c "createComponent"
    let p := build_props attrs children c1
    ({ TransformResult.empty with exprs :=
        [⟨"_createComponent(" ++ tag ++ ", " ++ p.1 ++ ")"⟩] }, p.2)

/-! ## The driver (crates/dom/src/transform.rs) -/

/-- `SolidTransform::transform_jsx_element`: dispatch a JSX element to the
component or native-element lowering. -/
def transform_jsx_element (tag : String) (attrs : List AttrItem)
    (children : List JSXChild) (info : TransformInfo) (c : BlockContext)
    (o : TransformOptions) : TransformResult × BlockContext :=
  if is_component tag then transform_component tag attrs children c o
  else transform_element tag attrs children info c o

/-- `SolidTransform::transform_text`: whitespace-normalized text becomes a
text TransformResult, empty text yields none. -/
def transform_text (s : String) : Option TransformResult :=
  let content := trim_whitespace s
  if strIsEmpty content then none
  else some { TransformResult.empty with
      template := escape_html content false, text := true }

/-- `SolidTransform::transform_expression_container`: a dynamic expression is
wrapped in an arrow placeholder, a static one in a static placeholder, an
empty container yields none. -/
def transform_expression_container (e : Option JSExpr) : Option TransformResult :=
  match e with
  | some ex =>
    if is_dynamic ex then
      some { TransformResult.empty with exprs := [⟨"() => /* expr */"⟩] }
    else
      some { TransformResult.empty with exprs := [⟨"/* static expr */"⟩] }
  | none => none

mutual

/-- `SolidTransform::transform_node`: dispatch on the JSX child kind. -/
def transform_node (ch : JSXChild) (info : TransformInfo) (c : BlockContext)
    (o : TransformOptions) : Option TransformResult × BlockContext :=
  match ch with
  | .element t a cs =>
    let p := transform_jsx_element t a cs info c o
    (some p.1, p.2)
  | .fragment cs =>
    let p := transform_fragment cs info c o
    (some p.1, p.2)
  | .text s => (transform_text s, c)
  | .exprContainer e => (transform_expression_container e, c)
  | .spreadChild =>
    (some { TransformResult.empty with exprs := [⟨"/* spread child */"⟩] }, c)
termination_by (sizeOf ch, 0)

/-- `SolidTransform::transform_fragment`: start from the default result and
merge every transformed child. -/
def transform_fragment (cs : List JSXChild) (info : TransformInfo)
    (c : BlockContext) (o : TransformOptions) : TransformResult × BlockContext :=
  transform_fragment_list cs TransformResult.empty info c o
termination_by (sizeOf cs, 2)

/-- The child loop of `transform_fragment`, merging each child result's
template, declarations, expressions and dynamics into the accumulator. -/
def transform_fragment_list (cs : List JSXChild) (acc : TransformResult)
    (info : TransformInfo) (c : BlockContext) (o : TransformOptions) :
    TransformResult × BlockContext :=
  match cs with
  | [] => (acc, c)
  | ch :: rest =>
    let p := transform_node ch info c o
    let acc1 := match p.1 with
      | some res =>
        { acc with
          template := acc.template ++ res.template,
          declarations := acc.declarations ++ res.declarations,
          exprs := acc.exprs ++ res.exprs,
          dynamics := acc.dynamics ++ res.dynamics }
      | none => acc
    transform_fragment_list rest acc1 info p.2 o
termination_by (sizeOf cs, 1)

end

/-- An expression position in the program, as the driver's
`enter_expression` sees it. -/
inductive Expression where
  | jsxElement (tag : String) (attrs : List AttrItem) (children : List JSXChild)
  | jsxFragment (children : List JSXChild)
  | otherExpr
deriving Repr

/-- A program statement carrying an expression. -/
inductive Stmt where
  | exprStmt (e : Expression)
deriving Repr

/-- A program: a list of statements. -/
structure Program where
  body : List Stmt
deriving Repr

/-- `SolidTransform::enter_expression` from transform.rs: a top-level JSX
element or fragment is lowered (mutating only the Block Context); the
expression node itself is returned unchanged (the replacement is an
unimplemented TODO in the source). -/
def enter_expression (e : Expression) (c : BlockContext) (o : TransformOptions) :
    Expression × BlockContext :=
  match e with
  | .jsxElement tag attrs children =>
    let p := transform_jsx_element tag attrs children
      { top_level := true, last_element := true } c o
    (e, p.2)
  | .jsxFragment children =>
    let p := transform_fragment children { top_level := true } c o
    (e, p.2)
  | .otherExpr => (e, c)

/-- The traversal of `enter_expression` over every statement's expression. -/
def run_enter (stmts : List Stmt) (c : BlockContext) (o : TransformOptions) :
    List Stmt × BlockContext :=
  match stmts with
  | [] => ([], c)
  | .exprStmt e :: rest =>
    let p := enter_expression e c o
    let q := run_enter rest p.2 o
    (.exprStmt p.1 :: q.1, q.2)

/-- `SolidTransform::exit_program` from transform.rs: reads the helper,
template and delegate registries but inserts no statement into the program
(the injection is an unimplemented TODO in the source). -/
def exit_program (p : Program) (c : BlockContext) : Program := p

/-- `SolidTransform::transform` run over a program starting from a given
Block Context (the real entry point always passes a fresh one). -/
def runTransformProgramFrom (c : BlockContext) (p : Program)
    (o : TransformOptions) : Program × BlockContext :=
  let q := run_enter p.body c o
  (exit_program ⟨q.1⟩ q.2, q.2)

/-- The full transform entry behaviour at the AST level: a fresh
`BlockContext` per run, as `SolidTransform::new` does. -/
def runTransformProgram (p : Program) (o : TransformOptions) :
    Program × BlockContext :=
  runTransformProgramFrom BlockContext.new p o

/-! ## General lemmas about the element lowering -/

/-- `transform_attribute` never touches the closing-tag template, the element
id or the declarations of the result. -/
theorem transform_attribute_keeps (a : JSXAttribute) (eid : String)
    (r : TransformResult) (c : BlockContext) (o : TransformOptions) :
    (transform_attribute a eid r c o).1.template_with_closing_tags =
      r.template_with_closing_tags ∧
    (transform_attribute a eid r c o).1.id = r.id ∧
    (transform_attribute a eid r c o).1.declarations = r.declarations := by
  simp only [transform_attribute, transform_ref, transform_event, transform_directive]
  refine ⟨?_, ?_, ?_⟩ <;> (repeat' split) <;> rfl

/-- The attribute loop never touches the closing-tag template, the element id
or the declarations of the result. -/
theorem transform_attr_list_keeps (attrs : List AttrItem) (eid : String)
    (b : Bool) (r : TransformResult) (c : BlockContext) (o : TransformOptions) :
    (transform_attr_list attrs eid b r c o).1.template_with_closing_tags =
      r.template_with_closing_tags ∧
    (transform_attr_list attrs eid b r c o).1.id = r.id ∧
    (transform_attr_list attrs eid b r c o).1.declarations = r.declarations := by
  induction attrs generalizing r c with
  | nil => simp [transform_attr_list]
  | cons item rest ih =>
    cases item with
    | attr a =>
      have h := transform_attribute_keeps a eid r c o
      have h2 := ih (transform_attribute a eid r c o).1 (transform_attribute a eid r c o).2
      simp only [transform_attr_list]
      exact ⟨h2.1.trans h.1, h2.2.1.trans h.2.1, h2.2.2.trans h.2.2⟩
    | spreadAttr =>
      have h2 := ih { r with exprs := r.exprs ++
          [⟨"_spread(" ++ eid ++ ", /* spread expr */, " ++ boolStr r.is_svg ++
            ", " ++ boolStr b ++ ")"⟩] } (register_helper c "spread")
      simpa [transform_attr_list] using h2

/-- `transform_attributes` never touches the closing-tag template, the
element id or the declarations of the result. -/
theorem transform_attributes_keeps (attrs : List AttrItem) (b : Bool)
    (r : TransformResult) (c : BlockContext) (o : TransformOptions) :
    (transform_attributes attrs b r c o).1.template_with_closing_tags =
      r.template_with_closing_tags ∧
    (transform_attributes attrs b r c o).1.id = r.id ∧
    (transform_attributes attrs b r c o).1.declarations = r.declarations := by
  unfold transform_attributes
  exact transform_attr_list_keeps ..

/-- `transform_children` never touches the closing-tag template or the
element id of the accumulating result. -/
theorem transform_children_keeps (children : List JSXChild)
    (r : TransformResult) (c : BlockContext) (o : TransformOptions) :
    (transform_children children r c o).1.template_with_closing_tags =
      r.template_with_closing_tags ∧
    (transform_children children r c o).1.id = r.id := by
  induction children generalizing r c with
  | nil => simp [transform_children]
  | cons ch rest ih =>
    cases ch with
    | text s =>
      simp only [transform_children]
      refine ⟨((ih _ _).1).trans ?_, ((ih _ _).2).trans ?_⟩ <;> split <;> rfl
    | element t a cs =>
      simp only [transform_children]
      exact ⟨((ih _ _).1).trans rfl, ((ih _ _).2).trans rfl⟩
    | exprContainer e =>
      simp only [transform_children]
      refine ⟨((ih _ _).1).trans ?_, ((ih _ _).2).trans ?_⟩ <;> split <;> rfl
    | fragment cs =>
      simpa only [transform_children] using ih r c
    | spreadChild =>
      simpa only [transform_children] using ih r c

/-- Projection form of `transform_attributes_keeps` for the closing-tag
template. -/
theorem transform_attributes_twct (attrs : List AttrItem) (b : Bool)
    (r : TransformResult) (c : BlockContext) (o : TransformOptions) :
    (transform_attributes attrs b r c o).1.template_with_closing_tags =
      r.template_with_closing_tags :=
  (transform_attributes_keeps attrs b r c o).1

/-- Projection form of `transform_attributes_keeps` for the element id. -/
theorem transform_attributes_id (attrs : List AttrItem) (b : Bool)
    (r : TransformResult) (c : BlockContext) (o : TransformOptions) :
    (transform_attributes attrs b r c o).1.id = r.id :=
  (transform_attributes_keeps attrs b r c o).2.1

/-- Projection form of `transform_children_keeps` for the closing-tag
template. -/
theorem transform_children_twct (children : List JSXChild)
    (r : TransformResult) (c : BlockContext) (o : TransformOptions) :
    (transform_children children r c o).1.template_with_closing_tags =
      r.template_with_closing_tags :=
  (transform_children_keeps children r c o).1

/-- Projection form of `transform_children_keeps` for the element id. -/
theorem transform_children_id (children : List JSXChild)
    (r : TransformResult) (c : BlockContext) (o : TransformOptions) :
    (transform_children children r c o).1.id = r.id :=
  (transform_children_keeps children r c o).2

/-- When no spread attribute occurs, the attribute loop does not look at the
has-children flag. -/
theorem transform_attr_list_ignores_children (attrs : List AttrItem)
    (eid : String) (b b' : Bool) (r : TransformResult) (c : BlockContext)
    (o : TransformOptions) (h : AttrItem.spreadAttr ∉ attrs) :
    transform_attr_list attrs eid b r c o = transform_attr_list attrs eid b' r c o := by
  induction attrs generalizing r c with
  | nil => rfl
  | cons item rest ih =>
    cases item with
    | attr a =>
      simp only [transform_attr_list]
      exact ih _ _ (fun hm => h (List.mem_cons_of_mem _ hm))
    | spreadAttr => exact absurd (List.mem_cons_self _ _) h

/-! ## Claim C7 -/

/-- C7, counterexample: for `<div class="hello">world</div>` the
`template_with_closing_tags` field is just `<div></div>`: it does not equal
the template with closing tags appended (attributes and children are
missing), and in the streaming `ssr` mode the closing tag is still appended
to `template`. -/
theorem C7_twct_misses_attributes_and_children :
    (transform_element "div" [.attr ⟨.identName "class", some (.stringLit "hello")⟩]
        [.text "world"] {} BlockContext.new solid_defaults).1.template
      = "<div class=\"hello\">world</div>" ∧
    (transform_element "div" [.attr ⟨.identName "class", some (.stringLit "hello")⟩]
        [.text "world"] {} BlockContext.new solid_defaults).1.template_with_closing_tags
      = "<div></div>" ∧
    (transform_element "div" [.attr ⟨.identName "class", some (.stringLit "hello")⟩]
        [.text "world"] {} BlockContext.new
        { solid_defaults with generate := .ssr }).1.template
      = "<div class=\"hello\">world</div>" := by
  refine ⟨?_, ?_, ?_⟩ <;>
  · simp only [transform_element, transform_attributes, transform_attr_list,
      transform_attribute, transform_children, transform_ref, transform_event,
      transform_directive, TransformResult.empty, BlockContext.new, generate_uid,
      jsxAttrKey]
    decide

/-- C7, amended claim: `template_with_closing_tags` of a native element
contains only the tag skeleton — the opening tag name, `>`, and (for
non-void elements) the closing tag, appended unconditionally in every
generate mode; attributes and children are appended only to `template`. -/
theorem C7_twct_tag_skeleton (tag : String) (attrs : List AttrItem)
    (children : List JSXChild) (info : TransformInfo) (c : BlockContext)
    (o : TransformOptions) :
    (transform_element tag attrs children info c o).1.template_with_closing_tags =
      if VOID_ELEMENTS.contains tag then "<" ++ tag ++ ">"
      else "<" ++ tag ++ ">" ++ "</" ++ tag ++ ">" := by
  simp only [transform_element, transform_children_twct, transform_attributes_twct]
  split <;> simp

/-! ## Claim C2 -/

/-- C2, counterexample: transforming the void element `<input>` with a text
child is not an error: it returns the very same TransformResult (and Block
Context) as transforming `<input>` with no children at all, with template
`<input>` and no trace of the child. -/
theorem C2_void_children_silently_dropped :
    transform_element "input" [] [.text "hello"] {} BlockContext.new solid_defaults
      = transform_element "input" [] [] {} BlockContext.new solid_defaults ∧
    (transform_element "input" [] [.text "hello"] {} BlockContext.new
        solid_defaults).1.template = "<input>" := by
  constructor <;>
  · simp only [transform_element, transform_attributes, transform_attr_list,
      transform_children, TransformResult.empty, BlockContext.new, generate_uid]
    decide

/-- C2, amended claim: for a void element the children are never transformed
and no diagnostic is raised — the transform returns normally and its output
does not depend on the children at all (absent spread attributes, whose
emitted code records whether children were present). -/
theorem C2_void_children_skipped (tag : String) (attrs : List AttrItem)
    (cs cs' : List JSXChild) (info : TransformInfo) (c : BlockContext)
    (o : TransformOptions) (hvoid : VOID_ELEMENTS.contains tag = true)
    (hns : AttrItem.spreadAttr ∉ attrs) :
    transform_element tag attrs cs info c o
      = transform_element tag attrs cs' info c o := by
  simp only [transform_element, transform_attributes, hvoid, if_true]
  rw [transform_attr_list_ignores_children _ _ (!cs.isEmpty) (!cs'.isEmpty) _ _ _ hns]

/-- C2, witness for the amended claim at `<input>world</input>` versus
`<input></input>`. -/
theorem C2_void_children_skipped_witness :
    transform_element "input" [] [.text "world"] {} BlockContext.new solid_defaults
      = transform_element "input" [] [] {} BlockContext.new solid_defaults :=
  C2_void_children_skipped "input" [] [.text "world"] [] {} BlockContext.new
    solid_defaults (by decide) (by decide)

/-! ## Claim C3 -/

/-- `transform_attribute` either leaves the dynamics untouched or appends a
single binding owned by the element id it was given. -/
theorem transform_attribute_dynamics_eq (a : JSXAttribute) (eid : String)
    (r : TransformResult) (c : BlockContext) (o : TransformOptions) :
    (transform_attribute a eid r c o).1.dynamics = r.dynamics ∨
    ∃ k v sv ce tn, (transform_attribute a eid r c o).1.dynamics
      = r.dynamics ++ [⟨eid, k, v, sv, ce, tn⟩] := by
  obtain ⟨nm, av⟩ := a
  simp only [transform_attribute, transform_ref, transform_event, transform_directive]
  rcases av with _ | (s | (_ | ex) | _) <;> (repeat' split) <;>
    first
    | exact Or.inl rfl
    | exact Or.inr ⟨_, _, _, _, _, rfl⟩

/-- Every dynamic binding present after the attribute loop was either already
present or is owned by the element id given to the loop. -/
theorem transform_attr_list_dynamics (attrs : List AttrItem) (eid : String)
    (b : Bool) (r : TransformResult) (c : BlockContext) (o : TransformOptions) :
    ∀ d ∈ (transform_attr_list attrs eid b r c o).1.dynamics,
      d ∈ r.dynamics ∨ d.elem = eid := by
  induction attrs generalizing r c with
  | nil =>
    intro d hd
    exact Or.inl hd
  | cons item rest ih =>
    cases item with
    | attr a =>
      intro d hd
      simp only [transform_attr_list] at hd
      rcases ih _ _ d hd with h | h
      · rcases transform_attribute_dynamics_eq a eid r c o with he | ⟨k, v, sv, ce, tn, he⟩
        · rw [he] at h
          exact Or.inl h
        · rw [he] at h
          rcases List.mem_append.1 h with h1 | h1
          · exact Or.inl h1
          · right
            rw [List.mem_singleton.1 h1]
      · exact Or.inr h
    | spreadAttr =>
      intro d hd
      simp only [transform_attr_list] at hd
      rcases ih _ _ d hd with h | h
      · exact Or.inl h
      · exact Or.inr h

/-- When the result already carries an id, every dynamic binding added by
`transform_attributes` is owned by that id. -/
theorem transform_attributes_dynamics_of_id (attrs : List AttrItem) (b : Bool)
    (r : TransformResult) (c : BlockContext) (o : TransformOptions) (i : String)
    (h : r.id = some i) :
    ∀ d ∈ (transform_attributes attrs b r c o).1.dynamics,
      d ∈ r.dynamics ∨ d.elem = i := by
  unfold transform_attributes
  rw [h]
  exact transform_attr_list_dynamics attrs i b r c o

/-- Whether a JSX child is a nested element. -/
def isElementChild : JSXChild → Bool
  | .element _ _ _ => true
  | _ => false

/-- When no child is a nested element, `transform_children` adds no dynamic
binding. -/
theorem transform_children_dynamics_no_elem (cs : List JSXChild)
    (r : TransformResult) (c : BlockContext) (o : TransformOptions)
    (h : ∀ ch ∈ cs, isElementChild ch = false) :
    (transform_children cs r c o).1.dynamics = r.dynamics := by
  induction cs generalizing r c with
  | nil => simp [transform_children]
  | cons ch rest ih =>
    have hrest : ∀ x ∈ rest, isElementChild x = false :=
      fun x hx => h x (List.mem_cons_of_mem _ hx)
    cases ch with
    | text s =>
      simp only [transform_children]
      rw [ih _ _ hrest]
      split <;> rfl
    | element t a cs2 =>
      exact absurd (h _ (List.mem_cons_self _ _)) (by simp [isElementChild])
    | exprContainer e =>
      simp only [transform_children]
      rw [ih _ _ hrest]
      split <;> rfl
    | fragment cs2 =>
      simp only [transform_children]
      exact ih _ _ hrest
    | spreadChild =>
      simp only [transform_children]
      exact ih _ _ hrest

/-- C3, counterexample: lowering `<div class={style()} />` with `skip_id`
set produces a dynamic binding owned by the fresh uid `el$0`, while the
result's id is `none` and its declarations are empty — the owner id is
recorded nowhere in the result. -/
theorem C3_skip_id_owner_id_unrecorded :
    (transform_element "div"
        [.attr ⟨.identName "class", some (.exprContainer (some (.call "style")))⟩]
        [] {skip_id := true} BlockContext.new solid_defaults).1.dynamics.all
      (fun b =>
        (transform_element "div"
            [.attr ⟨.identName "class", some (.exprContainer (some (.call "style")))⟩]
            [] {skip_id := true} BlockContext.new solid_defaults).1.id == some b.elem ||
        (transform_element "div"
            [.attr ⟨.identName "class", some (.exprContainer (some (.call "style")))⟩]
            [] {skip_id := true} BlockContext.new solid_defaults).1.declarations.any
          (fun d => d.name == b.elem)) = false := by
  simp only [transform_element, transform_attributes, transform_attr_list,
    transform_attribute, transform_ref, transform_event, transform_directive,
    transform_children, TransformResult.empty, BlockContext.new, generate_uid,
    jsxAttrKey, is_dynamic]
  decide

/-- C3, amended claim: when `skip_id` is not set and no child is a nested
element, every DynamicBinding of the TransformResult is owned by the
result's own id.  (With `skip_id` set, or for bindings merged from nested
elements, the owner id is a fresh uid that is recorded neither as the
result's id nor in `declarations`, which no code path ever populates.) -/
theorem C3_root_dynamics_owned (tag : String) (attrs : List AttrItem)
    (children : List JSXChild) (info : TransformInfo) (c : BlockContext)
    (o : TransformOptions) (hskip : info.skip_id = false)
    (hch : ∀ ch ∈ children, isElementChild ch = false) :
    ∀ b ∈ (transform_element tag attrs children info c o).1.dynamics,
      (transform_element tag attrs children info c o).1.id = some b.elem := by
  intro b hb
  simp only [transform_element, hskip, Bool.false_eq_true, if_false] at hb ⊢
  split at hb <;> rename_i hv
  · rw [if_pos hv]
    have hd := transform_attributes_dynamics_of_id attrs (!children.isEmpty)
      _ _ o ("el$" ++ toString c.counter) rfl b hb
    rcases hd with h | h
    · exact absurd h (List.not_mem_nil b)
    · simp only [transform_attributes_id, generate_uid, h]
  · rw [if_neg hv]
    rw [transform_children_dynamics_no_elem _ _ _ _ hch] at hb
    have hd := transform_attributes_dynamics_of_id attrs (!children.isEmpty)
      _ _ o ("el$" ++ toString c.counter) rfl b hb
    rcases hd with h | h
    · exact absurd h (List.not_mem_nil b)
    · simp only [transform_children_id, transform_attributes_id, generate_uid, h]

/-- C3, witness for the amended claim: `<div class={style()}>` without
`skip_id` yields a binding owned by the allocated id `el$0`. -/
theorem C3_root_dynamics_owned_witness :
    (transform_element "div"
        [.attr ⟨.identName "class", some (.exprContainer (some (.call "style")))⟩]
        [] {} BlockContext.new solid_defaults).1.id = some "el$0" :=
  C3_root_dynamics_owned "div"
    [.attr ⟨.identName "class", some (.exprContainer (some (.call "style")))⟩]
    [] {} BlockContext.new solid_defaults rfl
    (fun ch hch => absurd hch (List.not_mem_nil ch))
    ⟨"el$0", "class", "/* dynamic expr */", false, false, "div"⟩
    (by simp only [transform_element, transform_attributes, transform_attr_list,
          transform_attribute, transform_ref, transform_event, transform_directive,
          transform_children, TransformResult.empty, BlockContext.new, generate_uid,
          jsxAttrKey, is_dynamic]
        decide)

/-! ## Claim C4 -/

/-- Whether the second list starts the first. -/
def listLeadsWith : List Char → List Char → Bool
  | _, [] => true
  | [], _ :: _ => false
  | a :: as, b :: bs => a == b && listLeadsWith as bs

/-- Whether the second list occurs as a contiguous run inside the first. -/
def listHasInfix : List Char → List Char → Bool
  | s, sub =>
    if listLeadsWith s sub then true
    else
      match s with
      | [] => false
      | _ :: rest => listHasInfix rest sub

/-- Substring test over the character lists of two strings. -/
def strContainsSub (s sub : String) : Bool :=
  listHasInfix s.data sub.data

/-- C4, counterexample: for `<div>a{x()}b</div>` — a dynamic expression
between two static text siblings — the emitted template is plainly
`<div>ab</div>` with no `<!>` comment marker, and the single insert
expression `_insert(el$0, /* child expr */)` carries no marker argument. -/
theorem C4_no_marker_between_static_siblings :
    (transform_element "div" [] [.text "a", .exprContainer (some (.call "x")), .text "b"]
        {} BlockContext.new solid_defaults).1.template = "<div>ab</div>" ∧
    strContainsSub
      (transform_element "div" [] [.text "a", .exprContainer (some (.call "x")), .text "b"]
          {} BlockContext.new solid_defaults).1.template "<!>" = false ∧
    (transform_element "div" [] [.text "a", .exprContainer (some (.call "x")), .text "b"]
        {} BlockContext.new solid_defaults).1.exprs
      = [⟨"_insert(el$0, /* child expr */)"⟩] := by
  refine ⟨?_, ?_, ?_⟩ <;>
  · simp only [transform_element, transform_attributes, transform_attr_list,
      transform_children, TransformResult.empty, BlockContext.new, generate_uid]
    decide

/-- C4, amended claim: no comment marker is ever emitted, for a dynamic
child in any position.  The statement characterizes the children walk of
every element at every occurrence of an expression-container child: for
every accumulated element state `r` (in particular the one
`transform_element` builds from any tag and attributes), every preceding
sibling list `cs1` and every following sibling list `cs2` — so in leading,
trailing and between-static-siblings positions alike — the walk of
`cs1 ++ [expression-container] ++ cs2` is exactly the walk of `cs1`,
followed by a step that registers the `insert` helper, leaves the template
untouched (hence no `<!>` anywhere), and appends exactly the marker-free
insert expression `_insert(parent_id, /* child expr */)` when the result
carries an id (and nothing when it does not), followed by the walk of
`cs2`. -/
theorem C4_insert_emitted_without_marker (cs1 cs2 : List JSXChild)
    (e : Option JSExpr) (r : TransformResult) (c : BlockContext)
    (o : TransformOptions) :
    transform_children (cs1 ++ .exprContainer e :: cs2) r c o =
      transform_children cs2
        (match (transform_children cs1 r c o).1.id with
         | some i =>
           { (transform_children cs1 r c o).1 with
             exprs := (transform_children cs1 r c o).1.exprs ++
               [⟨"_insert(" ++ i ++ ", /* child expr */)"⟩] }
         | none => (transform_children cs1 r c o).1)
        (register_helper (transform_children cs1 r c o).2 "insert") o := by
  induction cs1 generalizing r c with
  | nil => simp only [List.nil_append, transform_children]
  | cons ch rest ih =>
    cases ch <;> simp only [List.cons_append, transform_children] <;> exact ih _ _

/-! ## Claim C5 -/

/-- C5: for every attribute whose key starts with `on`, the lowering either
registers the event for delegation and emits the `$$`-property assignment
(when `delegate_events` is set and the event is in the built-in or
user-supplied delegation set), or registers the `addEventListener` helper
and emits a listener-attach expression. -/
theorem C5_event_delegation_dispatch (a : JSXAttribute) (eid : String)
    (r : TransformResult) (c : BlockContext) (o : TransformOptions)
    (hon : strStartsWith (jsxAttrKey a) "on" = true) :
    transform_attribute a eid r c o =
      if o.delegate_events &&
          (DELEGATED_EVENTS.contains (to_event_name (jsxAttrKey a)) ||
           o.delegated_events.contains (to_event_name (jsxAttrKey a))) then
        ({ r with exprs := r.exprs ++
            [⟨eid ++ ".$$" ++ to_event_name (jsxAttrKey a) ++ "  = /* handler */"⟩] },
         register_delegate c (to_event_name (jsxAttrKey a)))
      else
        ({ r with exprs := r.exprs ++
            [⟨"_addEventListener(" ++ eid ++ ", \"" ++ to_event_name (jsxAttrKey a) ++
              "\", /* handler */)"⟩] },
         register_helper c "addEventListener") := by
  have hne : jsxAttrKey a ≠ "ref" := by
    intro h
    rw [h] at hon
    exact absurd hon (by decide)
  have href : (jsxAttrKey a == "ref") = false := beq_eq_false_iff_ne.2 hne
  simp only [transform_attribute, href, Bool.false_eq_true, if_false, hon, if_true,
    transform_event]

/-- C5, witness: `onClick` under the default options (delegation on,
`click` in the built-in set) takes the delegated branch. -/
theorem C5_event_delegation_dispatch_witness :
    transform_attribute ⟨.identName "onClick", some (.exprContainer (some (.ident "handler")))⟩
        "el$0" TransformResult.empty BlockContext.new solid_defaults =
      ({ TransformResult.empty with exprs := [⟨"el$0.$$click  = /* handler */"⟩] },
       register_delegate BlockContext.new "click") := by
  have h := C5_event_delegation_dispatch
    ⟨.identName "onClick", some (.exprContainer (some (.ident "handler")))⟩
    "el$0" TransformResult.empty BlockContext.new solid_defaults (by decide)
  rw [h]
  decide

/-! ## Claim C6 -/

/-- C6: the children handling of the user-component prop builder.  A single
JSX child yields a `get children()` getter returning the fixed placeholder
`/* single child */` (not the child's lowered expression), several children
yield the array placeholder, and an empty children set omits the property
altogether. -/
theorem C6_children_getter_placeholder :
    (transform_component "Button" [] [.text "Click me"] BlockContext.new solid_defaults).1.exprs
      = [⟨"_createComponent(Button, \x7b get children() \x7b return /* single child */; \x7d \x7d)"⟩] ∧
    (transform_component "Button" [] [.text "A", .text "B"] BlockContext.new solid_defaults).1.exprs
      = [⟨"_createComponent(Button, \x7b get children() \x7b return [/* children */]; \x7d \x7d)"⟩] ∧
    (transform_component "Button" [] [] BlockContext.new solid_defaults).1.exprs
      = [⟨"_createComponent(Button, \x7b\x7d)"⟩] := by
  refine ⟨?_, ?_, ?_⟩ <;> decide

/-! ## Claim C8 -/

/-- C8: lowering `<div class="hello">world</div>` through the driver's
element dispatch yields exactly the template
`<div class="hello">world</div>` with zero dynamics and zero expressions —
but the helper set stays empty: the `template` helper is never registered
(the driver materialization that would register it is an unimplemented
TODO). -/
theorem C8_div_hello_world_lowering :
    (transform_jsx_element "div" [.attr ⟨.identName "class", some (.stringLit "hello")⟩]
        [.text "world"] {top_level := true, last_element := true}
        BlockContext.new solid_defaults).1.template
      = "<div class=\"hello\">world</div>" ∧
    (transform_jsx_element "div" [.attr ⟨.identName "class", some (.stringLit "hello")⟩]
        [.text "world"] {top_level := true, last_element := true}
        BlockContext.new solid_defaults).1.dynamics = [] ∧
    (transform_jsx_element "div" [.attr ⟨.identName "class", some (.stringLit "hello")⟩]
        [.text "world"] {top_level := true, last_element := true}
        BlockContext.new solid_defaults).1.exprs = [] ∧
    (transform_jsx_element "div" [.attr ⟨.identName "class", some (.stringLit "hello")⟩]
        [.text "world"] {top_level := true, last_element := true}
        BlockContext.new solid_defaults).2.helpers = [] := by
  refine ⟨?_, ?_, ?_, ?_⟩ <;>
  · simp only [transform_jsx_element, transform_element, transform_attributes,
      transform_attr_list, transform_attribute, transform_ref, transform_event,
      transform_directive, transform_children, TransformResult.empty,
      BlockContext.new, generate_uid, jsxAttrKey]
    decide

/-! ## Claim C9 -/

/-- C9: the transform is deterministic — it is a pure function of the
program and the options, and every run starts from a fresh Block Context
(`SolidTransform::new`), so two runs from fresh contexts agree on the whole
output, helper order and uid numbering included. -/
theorem C9_transform_deterministic (p : Program) (o : TransformOptions)
    (c1 c2 : BlockContext) (h1 : c1 = BlockContext.new) (h2 : c2 = BlockContext.new) :
    runTransformProgramFrom c1 p o = runTransformProgramFrom c2 p o := by
  rw [h1, h2]

/-- C9, witness: two fresh-context runs on a one-element program coincide. -/
theorem C9_transform_deterministic_witness :
    runTransformProgramFrom BlockContext.new
        ⟨[.exprStmt (.jsxElement "div" [] [])]⟩ solid_defaults
      = runTransformProgramFrom BlockContext.new
        ⟨[.exprStmt (.jsxElement "div" [] [])]⟩ solid_defaults :=
  C9_transform_deterministic ⟨[.exprStmt (.jsxElement "div" [] [])]⟩ solid_defaults
    BlockContext.new BlockContext.new rfl rfl

/-! ## Claim C10 -/

/-- Registering a helper makes it present in the helper set. -/
theorem register_helper_contains (c : BlockContext) (n : String) :
    (register_helper c n).helpers.contains n = true := by
  unfold register_helper
  split <;> rename_i h
  · exact h
  · simp

/-- C10: lowering a non-void element with `skip_id` set and an
expression-container child registers the `insert` helper in the Block
Context, yet emits no insert expression (the result has no id), so the
dynamic child contributes nothing to the result's expressions. -/
theorem C10_skip_id_insert_registered_no_expr (tag : String) (e : Option JSExpr)
    (c : BlockContext) (o : TransformOptions)
    (hnv : VOID_ELEMENTS.contains tag = false) :
    (transform_element tag [] [.exprContainer e] {skip_id := true} c o).2.helpers.contains
      "insert" = true ∧
    (transform_element tag [] [.exprContainer e] {skip_id := true} c o).1.exprs = [] := by
  simp only [transform_element, transform_attributes, transform_attr_list,
    transform_children, TransformResult.empty, generate_uid, hnv,
    Bool.false_eq_true, if_false, if_true]
  exact ⟨register_helper_contains _ _, trivial⟩

/-- C10, witness at `<div>{x()}</div>` lowered with `skip_id`. -/
theorem C10_skip_id_insert_registered_no_expr_witness :
    (transform_element "div" [] [.exprContainer (some (.call "x"))] {skip_id := true}
        BlockContext.new solid_defaults).2.helpers.contains "insert" = true ∧
    (transform_element "div" [] [.exprContainer (some (.call "x"))] {skip_id := true}
        BlockContext.new solid_defaults).1.exprs = [] :=
  C10_skip_id_insert_registered_no_expr "div" (some (.call "x")) BlockContext.new
    solid_defaults (by decide)

/-! ## Claim C1 -/

/-- `enter_expression` hands back the expression node unchanged. -/
theorem enter_expression_fst (e : Expression) (c : BlockContext)
    (o : TransformOptions) : (enter_expression e c o).1 = e := by
  cases e <;> rfl

/-- The enter pass leaves the statement list unchanged. -/
theorem run_enter_fst (stmts : List Stmt) (c : BlockContext)
    (o : TransformOptions) : (run_enter stmts c o).1 = stmts := by
  induction stmts generalizing c with
  | nil => rfl
  | cons st rest ih =>
    cases st with
    | exprStmt e =>
      simp only [run_enter]
      rw [enter_expression_fst, ih]

/-- C1: the driver leaves the program byte-for-byte unchanged — top-level
JSX expressions are not replaced by their lowered equivalents, and at
program exit no helper import, template declaration or delegation call is
prepended (both steps are unimplemented TODOs in `enter_expression` and
`exit_program`). -/
theorem C1_driver_leaves_program_unchanged (p : Program) (o : TransformOptions)
    (c : BlockContext) : (runTransformProgramFrom c p o).1 = p := by
  cases p with
  | mk body =>
    simp only [runTransformProgramFrom, exit_program]
    rw [run_enter_fst]

end SolidJsxOxc
